import Mathlib

/-
Verification of bzt/modules/shellexec.py: the Task lifecycle state machine
(start / check / shutdown), its configuration loading, and the wiring of
process output sinks. Python objects are embedded as explicit Lean data;
exceptions become explicit Outcome values; the OS process is an oracle whose
poll answers are passed as parameters.
-/

namespace ShellExec

/-- Python logging severity constant logging.DEBUG. -/
def DEBUG : Nat := 10

/-- Python logging severity constant logging.INFO. -/
def INFO : Nat := 20

/-- An output sink value: either a LoggingFileOutput at a fixed severity
(the defaults constructed in Task.__init__) or a user-supplied sink object
taken from the configuration. -/
inductive Sink
  | logging (level : Nat)
  | custom (id : Nat)
deriving DecidableEq, Repr

/-- The value stored in the command field of Task: the configured string, or
the ValueError object that config.get returns as a default value when the
key is absent (shellexec.py line 95 passes ValueError(...) as the second
argument of dict.get instead of raising it). -/
inductive CommandVal
  | str (s : String)
  | valueErrorObj (msg : String)
deriving DecidableEq, Repr

/-- A process handle (the Popen object), identified by its pid. -/
abbrev Proc := Nat

/-- One task configuration entry. Absent keys are none; Task.init applies
the defaults exactly as Task.__init__ does. The ignoreFailure field embeds
the config key named ignore-failure. -/
structure Config where
  command : Option String := none
  background : Option Bool := none
  ignoreFailure : Option Bool := none
  out : Option Sink := none
  err : Option Sink := none
deriving Repr

/-- The mutable state of one Task object (shellexec.py lines 92-101).
Field names follow the source: err and out are the two sink attributes,
process the Popen handle, ret_code the recorded exit code. -/
structure Task where
  command : CommandVal
  is_background : Bool
  ignore_failure : Bool
  err : Sink
  out : Sink
  process : Option Proc
  ret_code : Option Int
deriving DecidableEq, Repr

/-- Task.__init__ (lines 92-101), embedding each config.get call:
command   := config.get("command", ValueError("Parameter is required: command"))
is_background := config.get("background", False)
ignore_failure := config.get("ignore-failure", True)
err       := config.get("out", LoggingFileOutput(log, DEBUG))
out       := config.get("err", LoggingFileOutput(log, INFO))
process   := None; ret_code := None. -/
def Task.init (config : Config) : Task :=
  { command := match config.command with
      | some s => CommandVal.str s
      | none => CommandVal.valueErrorObj "Parameter is required: command"
    is_background := config.background.getD false
    ignore_failure := config.ignoreFailure.getD true
    err := config.out.getD (Sink.logging DEBUG)
    out := config.err.getD (Sink.logging INFO)
    process := none
    ret_code := none }

/-- The kwargs dictionary Task.start builds for the spawn (lines 113-119):
stdout is wired from the attribute self.out and stderr from self.err. -/
structure SpawnKwargs where
  args : CommandVal
  stdout : Sink
  stderr : Sink
deriving DecidableEq, Repr

/-- The stream wiring of Task.start (lines 113-119). -/
def Task.spawnKwargs (t : Task) : SpawnKwargs :=
  { args := t.command, stdout := t.out, stderr := t.err }

/-- The control outcome of a Task method call: a normal Python return whose
value is None / True / False, a raised CalledProcessError carrying the
return code, a raised AutomatedShutdown, or the AttributeError produced by
calling .poll() on a process attribute that is None. -/
inductive Outcome
  | ret (v : Option Bool)
  | raiseCalled (code : Int)
  | raiseAutomated
  | attrError
deriving DecidableEq, Repr

/-- Result of Task.check: the outcome, the post-state, and whether
process.poll() was actually invoked on the OS process. -/
structure CheckOut where
  outcome : Outcome
  task : Task
  polled : Bool
deriving DecidableEq, Repr

/-- Task.check (lines 134-145). The parameter poll is the value the OS
would return from process.poll() at this moment: none while the process is
still running, some rc once it has exited with code rc. The early return
on line 135-136 is a bare Python return, so its value is None. -/
def Task.check (t : Task) (poll : Option Int) : CheckOut :=
  if t.ret_code.isSome || !t.is_background then
    { outcome := Outcome.ret none, task := t, polled := false }
  else
    match t.process with
    | none => { outcome := Outcome.attrError, task := t, polled := false }
    | some _ =>
      let t1 : Task := { t with ret_code := poll }
      match poll with
      | some rc =>
        if !t1.ignore_failure then
          { outcome := Outcome.raiseCalled rc, task := t1, polled := true }
        else
          { outcome := Outcome.ret (some true), task := t1, polled := true }
      | none => { outcome := Outcome.ret (some false), task := t1, polled := true }

/-- Python truthiness of the optional integer ret_code: None and 0 are
falsy, any other integer is truthy. -/
def intTruthy (x : Option Int) : Bool :=
  match x with
  | none => false
  | some n => n != 0

/-- Modelled from the spec: bzt.utils.shutdown_process, the forced
termination primitive of ProcessSupervisor, is imported from bzt.utils and
is not under src. Per the spec (section 4.2) it sends a graceful stop then
a kill to the process group, treats failure to terminate as success, and
never raises; its only effect observable in this model is that it was
invoked, which Task.shutdown records in the killInvoked flag below. -/
def shutdown_process (_p : Option Proc) : Unit := ()

/-- Result of Task.shutdown: the outcome, the post-state, and whether
shutdown_process (forced termination) was invoked. -/
structure ShutdownOut where
  outcome : Outcome
  task : Task
  killInvoked : Bool
deriving DecidableEq, Repr

/-- Task.shutdown (lines 147-162). The source calls self.check() twice
(line 153 and line 155); poll1 and poll2 are the OS poll answers for those
two calls. Line 155 tests the Python truthiness of the second check result,
so forced termination runs unless that call returned True; line 158 clears
the handle; line 160 tests the truthiness of ret_code and the negation of
ignore_failure before raising AutomatedShutdown. An exception from either
inner check propagates immediately. -/
def Task.shutdown (t : Task) (poll1 poll2 : Option Int) : ShutdownOut :=
  let c1 := t.check poll1
  match c1.outcome with
  | Outcome.ret _ =>
    let c2 := c1.task.check poll2
    match c2.outcome with
    | Outcome.ret v =>
      let killInvoked : Bool := !(v == some true)
      let t3 : Task := { c2.task with process := none }
      if intTruthy t3.ret_code && !t3.ignore_failure then
        { outcome := Outcome.raiseAutomated, task := t3, killInvoked := killInvoked }
      else
        { outcome := Outcome.ret none, task := t3, killInvoked := killInvoked }
    | o => { outcome := o, task := c2.task, killInvoked := false }
  | o => { outcome := o, task := c1.task, killInvoked := false }

/-- Result of Task.start: the outcome, the post-state, and whether a new
process was spawned. -/
structure StartOut where
  outcome : Outcome
  task : Task
  spawned : Bool
deriving DecidableEq, Repr

/-- Task.start (lines 103-132). If a process handle exists, check() runs
and the method logs and returns (no spawn). Otherwise the command is
spawned: background tasks store the new handle and return; foreground
tasks with ignore_failure run subprocess.call, whose exit code is only
logged (line 129-130), never assigned to ret_code; foreground tasks
without ignore_failure run subprocess.check_call, which raises
CalledProcessError exactly when the exit code is non-zero. The parameter
pollIfRunning feeds the inner check() of the re-entrant branch, newHandle
is the handle Popen would return, fgExit the exit code a blocking
foreground run would produce. -/
def Task.start (t : Task) (pollIfRunning : Option Int) (newHandle : Proc) (fgExit : Int) : StartOut :=
  if t.process.isSome then
    let c := t.check pollIfRunning
    match c.outcome with
    | Outcome.ret _ => { outcome := Outcome.ret none, task := c.task, spawned := false }
    | o => { outcome := o, task := c.task, spawned := false }
  else if t.is_background then
    { outcome := Outcome.ret none, task := { t with process := some newHandle }, spawned := true }
  else if t.ignore_failure then
    { outcome := Outcome.ret none, task := t, spawned := true }
  else if fgExit != 0 then
    { outcome := Outcome.raiseCalled fgExit, task := t, spawned := true }
  else
    { outcome := Outcome.ret none, task := t, spawned := true }

/-- A background task with default failure policy, as loaded from the
configuration entry with command "sleep 100" and background true. -/
def bgTask : Task := Task.init { command := some "sleep 100", background := some true }

/-- bgTask after start() spawned its process with handle 1. -/
def bgStarted : Task := (bgTask.start none 1 0).task

/-- bgStarted after a check() that observed exit code 0. -/
def finishedBg : Task := (bgStarted.check (some 0)).task

/-- A background task with ignore-failure false. -/
def bgStrict : Task :=
  Task.init { command := some "x", background := some true, ignoreFailure := some false }

/-- bgStrict after start() spawned its process with handle 1. -/
def bgStrictStarted : Task := (bgStrict.start none 1 0).task

/-- bgStrictStarted after a check() that observed exit code 5 (that check
raised CalledProcessError, but it had already recorded ret_code := 5). -/
def strictFinished : Task := (bgStrictStarted.check (some 5)).task

/-- A freshly constructed foreground task with default policy. -/
def fgTask : Task := Task.init { command := some "exit 7" }

/-- C1, counterexample: for the foreground task with ignore-failure true
whose process exits with code 7, start() returns normally but ret_code is
still None afterwards, not 7 as the claim states. -/
theorem c1_counterexample :
    (fgTask.start none 0 7).outcome = Outcome.ret none ∧
    (fgTask.start none 0 7).task.ret_code = none ∧
    (fgTask.start none 0 7).task.ret_code ≠ some 7 := by
  refine ⟨rfl, rfl, ?_⟩
  decide

/-- C1, amended: for every task with background false and ignore-failure
true and no live process, start() returns normally for any exit code of
the spawned process, but the exit code is only logged: the task state,
including ret_code, is unchanged. -/
theorem c1_amended (t : Task) (p : Option Int) (hdl : Proc) (rc : Int)
    (hp : t.process = none) (hbg : t.is_background = false) (hig : t.ignore_failure = true) :
    (t.start p hdl rc).outcome = Outcome.ret none ∧ (t.start p hdl rc).task = t := by
  simp [Task.start, hp, hbg, hig]

/-- C1, witness for the amended theorem at the concrete task fgTask with
exit code 7. -/
theorem c1_amended_witness :
    (fgTask.start none 0 7).outcome = Outcome.ret none ∧ (fgTask.start none 0 7).task = fgTask :=
  c1_amended fgTask none 0 7 (by decide) (by decide) (by decide)

/-- C2, code evaluation at the failing input: a background task whose
process has already exited with code 0 when shutdown() is called. The
first inner check() records the exit code and returns True, the second
returns None (bare return), which is falsy, so forced termination IS
invoked on the already-exited process, contradicting both the claim and
the shutdown docstring (kill only if the task was not completed). -/
theorem c2_code_eval :
    (bgStarted.shutdown (some 0) none).killInvoked = true ∧
    (bgStarted.shutdown (some 0) none).outcome = Outcome.ret none ∧
    (bgStarted.shutdown (some 0) none).task.process = none ∧
    (bgStarted.shutdown (some 0) none).task.ret_code = some 0 := by
  refine ⟨rfl, rfl, rfl, rfl⟩

/-- C3, code evaluation at the failing input: a background task with
ignore-failure false whose process exited with code 0. check() records
ret_code 0 and then raises CalledProcessError(0) although the exit code is
zero, because line 141 tests only ignore_failure and never the code. -/
theorem c3_code_eval :
    (bgStrictStarted.check (some 0)).outcome = Outcome.raiseCalled 0 ∧
    (bgStrictStarted.check (some 0)).task.ret_code = some 0 := by
  refine ⟨rfl, rfl⟩

/-- C4, counterexample: for the reachable task strictFinished (background,
ignore-failure false, recorded exit code 5), shutdown() raises
AutomatedShutdown, and calling shutdown() again on the resulting state
raises AutomatedShutdown a second time, contradicting the claimed at most
once per task instance. -/
theorem c4_counterexample :
    (strictFinished.shutdown none none).outcome = Outcome.raiseAutomated ∧
    ((strictFinished.shutdown none none).task.shutdown none none).outcome
      = Outcome.raiseAutomated := by
  refine ⟨rfl, rfl⟩

/-- C4, amended: for any task whose exit code is already recorded (so the
inner checks are no-ops), shutdown() raises AutomatedShutdown exactly when
that code is non-zero and ignore-failure is false, and a further
shutdown() on the post-state produces the same outcome again: the
escalation repeats on every qualifying call instead of happening at most
once. -/
theorem c4_amended (t : Task) (rc : Int) (p1 p2 q1 q2 : Option Int)
    (h : t.ret_code = some rc) :
    ((t.shutdown p1 p2).outcome = Outcome.raiseAutomated
      ↔ (rc ≠ 0 ∧ t.ignore_failure = false)) ∧
    ((t.shutdown p1 p2).task.shutdown q1 q2).outcome = (t.shutdown p1 p2).outcome := by
  simp only [Task.shutdown, Task.check, h, Option.isSome_some, Bool.true_or, if_true,
    intTruthy]
  constructor
  · by_cases hrc : rc = 0 <;> by_cases hig : t.ignore_failure <;>
      simp [hrc, hig, bne]
  · by_cases hrc : rc = 0 <;> by_cases hig : t.ignore_failure <;>
      simp [hrc, hig, bne]

/-- C4, witness for the amended theorem at the concrete task
strictFinished with recorded exit code 5. -/
theorem c4_amended_witness :
    ((strictFinished.shutdown none none).outcome = Outcome.raiseAutomated
      ↔ ((5 : Int) ≠ 0 ∧ strictFinished.ignore_failure = false)) ∧
    ((strictFinished.shutdown none none).task.shutdown none none).outcome
      = (strictFinished.shutdown none none).outcome :=
  c4_amended strictFinished 5 none none none none (by decide)

/-- C5, counterexample: the same failed background task (ignore-failure
false, exit code 5) escalates as CalledProcessError when check() detects
the failure but as AutomatedShutdown when shutdown() does, and those two
outcomes are distinct, contradicting the claim of a single escalation
kind. -/
theorem c5_counterexample :
    (bgStrictStarted.check (some 5)).outcome = Outcome.raiseCalled 5 ∧
    (strictFinished.shutdown none none).outcome = Outcome.raiseAutomated ∧
    Outcome.raiseCalled 5 ≠ Outcome.raiseAutomated := by
  refine ⟨rfl, rfl, ?_⟩
  decide

/-- C5, amended: with ignore-failure false the escalation kind depends on
the detecting lifecycle call: start() on a fresh foreground task with
non-zero exit raises CalledProcessError, check() on a live background
task that observes termination raises CalledProcessError, while the
escalation proper to shutdown() (recorded non-zero exit code) is
AutomatedShutdown. -/
theorem c5_amended (s t u : Task) (fg : Int) (sp hdl : Proc) (sprc : Option Int)
    (rc urc : Int) (q1 q2 : Option Int)
    (hs1 : s.process = none) (hs2 : s.is_background = false)
    (hs3 : s.ignore_failure = false) (hfg : fg ≠ 0)
    (ht1 : t.is_background = true) (ht2 : t.ignore_failure = false)
    (ht3 : t.ret_code = none) (ht4 : t.process = some hdl)
    (hu1 : u.ignore_failure = false) (hu2 : u.ret_code = some urc) (hu3 : urc ≠ 0) :
    (s.start sprc sp fg).outcome = Outcome.raiseCalled fg ∧
    (t.check (some rc)).outcome = Outcome.raiseCalled rc ∧
    (u.shutdown q1 q2).outcome = Outcome.raiseAutomated := by
  refine ⟨?_, ?_, ?_⟩
  · simp [Task.start, hs1, hs2, hs3, bne, hfg]
  · simp [Task.check, ht1, ht2, ht3, ht4]
  · simp [Task.shutdown, Task.check, hu1, hu2, intTruthy, bne, hu3]

/-- C5, witness for the amended theorem at concrete tasks: a strict
foreground task exiting 7, the strict background task observed at exit 5,
and strictFinished at shutdown. -/
theorem c5_amended_witness :
    ((Task.init { command := some "false", ignoreFailure := some false }).start
        none 0 7).outcome = Outcome.raiseCalled 7 ∧
    (bgStrictStarted.check (some 5)).outcome = Outcome.raiseCalled 5 ∧
    (strictFinished.shutdown none none).outcome = Outcome.raiseAutomated :=
  c5_amended (Task.init { command := some "false", ignoreFailure := some false })
    bgStrictStarted strictFinished 7 0 1 none 5 5 none none
    (by decide) (by decide) (by decide) (by decide) (by decide) (by decide)
    (by decide) (by decide) (by decide) (by decide) (by decide)

/-- C6, counterexample: on the reachable task finishedBg, whose ret_code
is already set, check() returns None (a bare Python return), not the
claimed finished=true. -/
theorem c6_counterexample :
    (finishedBg.check (some 0)).outcome = Outcome.ret none ∧
    (finishedBg.check (some 0)).outcome ≠ Outcome.ret (some true) := by
  refine ⟨rfl, ?_⟩
  decide

/-- C6, amended: whenever ret_code is already set or the task is not a
background task, check() is a no-op that does not poll the OS process and
leaves the task unchanged, but its return value is None (falsy), not
finished=true. -/
theorem c6_amended (t : Task) (p : Option Int)
    (h : (t.ret_code.isSome || !t.is_background) = true) :
    t.check p = { outcome := Outcome.ret none, task := t, polled := false } := by
  simp [Task.check, h]

/-- C6, witness for the amended theorem at the concrete task finishedBg. -/
theorem c6_amended_witness :
    finishedBg.check (some 0)
      = { outcome := Outcome.ret none, task := finishedBg, polled := false } :=
  c6_amended finishedBg (some 0) (by decide)

/-- C7, counterexample: the task finishedBg, reached by init, start and a
check() that observed exit code 0, has ret_code and process set
simultaneously, contradicting the claimed mutual exclusion of the two
fields. -/
theorem c7_counterexample :
    finishedBg.ret_code = some 0 ∧ finishedBg.process = some 1 := by
  refine ⟨rfl, rfl⟩

/-- C7, amended: when check() on a live background task observes
termination, it records ret_code but does not clear the process handle,
so both fields are set simultaneously until shutdown() clears the handle. -/
theorem c7_amended (t : Task) (rc : Int) (hdl : Proc)
    (hbg : t.is_background = true) (hrc : t.ret_code = none) (hp : t.process = some hdl) :
    (t.check (some rc)).task.ret_code = some rc ∧
    (t.check (some rc)).task.process = some hdl := by
  simp only [Task.check, hrc, hbg, hp]
  by_cases hig : t.ignore_failure <;> simp [hig, hp]

/-- C7, witness for the amended theorem at the concrete task bgStarted
observing exit code 0. -/
theorem c7_amended_witness :
    (bgStarted.check (some 0)).task.ret_code = some 0 ∧
    (bgStarted.check (some 0)).task.process = some 1 :=
  c7_amended bgStarted 0 1 (by decide) (by decide) (by decide)

/-- C8, code evaluation at the failing input: construction from a
configuration without the command key does not fail; it stores the
ValueError object itself as the command, because line 95 passes
ValueError(...) to config.get as a default value instead of raising it. -/
theorem c8_code_eval :
    (Task.init {}).command = CommandVal.valueErrorObj "Parameter is required: command" ∧
    (Task.init {}).process = none ∧ (Task.init {}).ret_code = none := by
  refine ⟨rfl, rfl, rfl⟩

/-- C9, code evaluation: with both sink keys omitted, stdout does default
to an INFO sink and stderr to a DEBUG sink as the claim says; but the
governance is crossed: a sink configured under the out key is wired to
stderr (leaving stdout at the INFO default), and a sink configured under
the err key is wired to stdout, because line 98 assigns config.get("out")
to self.err and line 99 assigns config.get("err") to self.out, while start
wires stdout from self.out and stderr from self.err. -/
theorem c9_code_eval :
    (Task.init { command := some "x" }).spawnKwargs.stdout = Sink.logging INFO ∧
    (Task.init { command := some "x" }).spawnKwargs.stderr = Sink.logging DEBUG ∧
    (Task.init { command := some "x", out := some (Sink.custom 1) }).spawnKwargs.stderr
      = Sink.custom 1 ∧
    (Task.init { command := some "x", out := some (Sink.custom 1) }).spawnKwargs.stdout
      = Sink.logging INFO ∧
    (Task.init { command := some "x", err := some (Sink.custom 2) }).spawnKwargs.stdout
      = Sink.custom 2 := by
  refine ⟨rfl, rfl, rfl, rfl, rfl⟩

/-- C10, confirmed: on a background task that was never started (no
recorded exit code, process handle None), check() reaches
self.process.poll() with process None and crashes with AttributeError,
and shutdown(), whose first statement is that same check(), crashes the
same way: these operations are safe only after start() has set the
handle. -/
theorem c10_confirmed (t : Task) (p p1 p2 : Option Int)
    (hbg : t.is_background = true) (hrc : t.ret_code = none) (hp : t.process = none) :
    (t.check p).outcome = Outcome.attrError ∧
    (t.shutdown p1 p2).outcome = Outcome.attrError := by
  constructor
  · simp [Task.check, hbg, hrc, hp]
  · simp [Task.shutdown, Task.check, hbg, hrc, hp]

/-- C10, witness at the concrete never-started background task bgTask. -/
theorem c10_confirmed_witness :
    (bgTask.check none).outcome = Outcome.attrError ∧
    (bgTask.shutdown none none).outcome = Outcome.attrError :=
  c10_confirmed bgTask none none none (by decide) (by decide) (by decide)

end ShellExec
